import Mathlib

/-!
Shallow embedding of the SuShe-NG list-persistence core:
the `Album` model (src/models/album.py), the list codec
(src/utils/album_list_manager.py) and the repository
(src/utils/list_repository.py).  File contents are modelled as parsed
JSON shapes, the filesystem as an association list from paths to file
contents, and the sidecar metadata as a record of lists.  Python
exceptions are modelled by an explicit error type and `Except`.
-/

namespace SusheNG

/-- Python exception kinds raised by the embedded code.  `importErrorOf`
and `exportErrorOf` model the codec's own `ImportError` / `ExportError`
wrappers around an underlying exception. -/
inductive PyErr where
  | typeError
  | attributeError
  | fileNotFound
  | valueError (msg : String)
  | importErrorOf (cause : PyErr)
  | exportErrorOf (cause : PyErr)
deriving DecidableEq

/-! ### Python primitives used by the source -/

/-- Python `str.endswith`, character-wise. -/
def pyEndsWith (s suffix : String) : Bool :=
  suffix.data.isSuffixOf s.data

/-- ASCII whitespace stripped by Python's `str.strip()` / `int(str)`. -/
def pyWhitespaceChars : List Char :=
  [' ', '\t', '\n', '\r', '\x0b', '\x0c']

/-- `not s.strip()` in Python: the string is empty or all whitespace. -/
def pyStrBlank (s : String) : Bool :=
  s.data.all (fun c => pyWhitespaceChars.contains c)

/-- Python `str.split(sep)` for a single-character separator, on a char list.
`"".split('-') = [""]` is mirrored by the `[[]]` base case. -/
def pySplitChar (sep : Char) (cs : List Char) : List (List Char) :=
  cs.foldr
    (fun c acc =>
      match acc with
      | g :: gs => if c = sep then [] :: g :: gs else (c :: g) :: gs
      | [] => [[c]])
    [[]]

/-- Digit-string value, `none` if empty or not all decimal digits. -/
def decDigitsVal (cs : List Char) : Option Nat :=
  if cs ≠ [] ∧ cs.all Char.isDigit then
    some (cs.foldl (fun a c => a * 10 + (c.toNat - 48)) 0)
  else none

/-- Python `int(str)`: strip whitespace, optional single sign, decimal
digits; raises `ValueError` (here: `none`) otherwise. -/
def pyInt (cs : List Char) : Option Int :=
  let t := ((cs.dropWhile (pyWhitespaceChars.contains ·)).reverse.dropWhile
      (pyWhitespaceChars.contains ·)).reverse
  match t with
  | '+' :: ds => (decDigitsVal ds).map Int.ofNat
  | '-' :: ds => (decDigitsVal ds).map (fun n => -(n : Int))
  | ds => (decDigitsVal ds).map Int.ofNat

/-! ### Dates (`datetime.date`) -/

/-- A `datetime.date` value. -/
structure Date where
  year : Int
  month : Int
  day : Int
deriving DecidableEq

/-- Gregorian leap-year rule used by `datetime`. -/
def isLeapYear (y : Int) : Bool :=
  y % 4 = 0 && (y % 100 ≠ 0 || y % 400 = 0)

/-- Days in a month, as `datetime` validates them. -/
def daysInMonth (y m : Int) : Int :=
  if m = 2 then (if isLeapYear y then 29 else 28)
  else if m = 4 ∨ m = 6 ∨ m = 9 ∨ m = 11 then 30
  else 31

/-- The `date(year, month, day)` constructor: `none` models the
`ValueError` raised on an invalid calendar date. -/
def dateNew (y m d : Int) : Option Date :=
  if 1 ≤ y ∧ y ≤ 9999 ∧ 1 ≤ m ∧ m ≤ 12 ∧ 1 ≤ d ∧ d ≤ daysInMonth y m then
    some ⟨y, m, d⟩
  else none

/-- Zero-padded decimal rendering of a natural number. -/
def padZeros (w : Nat) (n : Nat) : String :=
  let ds := Nat.toDigits 10 n
  ⟨List.replicate (w - ds.length) '0' ++ ds⟩

/-- `date.isoformat()`: `YYYY-MM-DD`. -/
def Date.isoformat (d : Date) : String :=
  padZeros 4 d.year.toNat ++ "-" ++ padZeros 2 d.month.toNat ++ "-" ++
    padZeros 2 d.day.toNat

/-- `date.fromisoformat`: strict `YYYY-MM-DD` parsing; `none` models the
`ValueError` on any other shape or an invalid calendar date. -/
def dateFromIsoformat (s : String) : Option Date :=
  match s.data with
  | [y1, y2, y3, y4, '-', m1, m2, '-', d1, d2] =>
    match decDigitsVal [y1, y2, y3, y4], decDigitsVal [m1, m2],
        decDigitsVal [d1, d2] with
    | some y, some m, some d => dateNew y m d
    | _, _, _ => none
  | _ => none

/-! ### The Album model (src/models/album.py) -/

/-- An `Album` object.  The fields down to `cover_image` are the ones set
by `Album.__init__`.  The remaining fields model attributes that other
code attaches to the object after construction (Python objects accept
dynamic attributes); `none` means the attribute was never set, so that a
direct read raises `AttributeError` and `getattr(a, f, default)` yields
the default. -/
structure Album where
  artist : String
  name : String
  release_date : Option Date
  genre1 : String
  genre2 : String
  comment : String
  cover_image : Option String
  cover_image_data : Option (Option String) := none
  cover_image_format : Option (Option String) := none
  album_id : Option String := none
  country : Option String := none
  rank : Option Int := none
  points : Option Int := none
deriving DecidableEq

/-- The parameter names of `Album.__init__`
(src/models/album.py lines 12-14): `artist`, `name`, `release_date`,
`genre1`, `genre2` (default `""`), `comment` (default `""`),
`cover_image` (default `None`).  There are no further parameters. -/
def albumInitParams : List String :=
  ["artist", "name", "release_date", "genre1", "genre2", "comment",
   "cover_image"]

/-- The keyword names used at the `Album(...)` call sites of the codec:
src/utils/album_list_manager.py lines 81-91 (`import_from_old_format`)
and lines 260-270 (`import_from_new_format`).  Both sites pass exactly
these keywords.  A Python keyword call raises `TypeError` when any
keyword is not a parameter name of the callee. -/
def codecAlbumKwargs : List String :=
  ["artist", "name", "release_date", "genre1", "genre2", "comment",
   "cover_image", "cover_image_data", "cover_image_format"]

/-! ### Codec data shapes (src/utils/album_list_manager.py) -/

/-- The `metadata` object written by `export_to_new_format`. -/
structure SushMeta where
  title : String
  description : String
  date_created : String
  date_modified : String
  album_count : Nat
deriving DecidableEq

/-- One album entry of a current-format (`.sush`) file, in the shape
written by `export_to_new_format` (all keys present). -/
structure SushAlbum where
  artist : String
  title : String
  release_date : Option String
  genre1 : String
  genre2 : String
  comment : String
  cover_image_data : Option String
  cover_image_format : Option String
  rank : Int
  points : Int
  album_id : String
  country : String
deriving DecidableEq

/-- A whole current-format (`.sush`) file. -/
structure SushData where
  format_version : Int
  metadata : SushMeta
  albums : List SushAlbum
deriving DecidableEq

/-- The caller-supplied list metadata dict, projected to the keys the
codec reads (`.get` with a default); `none` models an absent key.
`album_count` is carried to show that a stale value is ignored by
`export_to_new_format`. -/
structure ListMetaIn where
  title : Option String := none
  description : Option String := none
  date_created : Option String := none
  album_count : Option Int := none
deriving DecidableEq

/-- `_load_points_mapping` (src/utils/album_list_manager.py lines
191-216) looks up `str(rank)` in a mapping loaded from
`resources/points.json`; this repository's `src/resources` directory
contains no `points.json` (only `__init__.py`), so the open raises and
the default mapping `{str(i): max(1, 61 - i) for i in range(1, 61)}` is
used.  `points_mapping.get(str(rank), 1)` on that mapping: -/
def pointsMappingGet (rank : Nat) : Int :=
  if 1 ≤ rank ∧ rank ≤ 60 then max 1 (61 - (rank : Int)) else 1

/-- One iteration of the export loop (src/utils/album_list_manager.py
lines 154-177) at 0-based position `idx`.  `album.cover_image_data` and
`album.cover_image_format` are read by direct attribute access, so an
album on which they were never set raises `AttributeError`;
`album_id`/`country` are read with `getattr(album, _, "")`. -/
def exportAlbumEntry (idx : Nat) (a : Album) : Except PyErr SushAlbum :=
  match a.cover_image_data, a.cover_image_format with
  | some cid, some cif =>
    .ok { artist := a.artist
          title := a.name
          release_date := a.release_date.map Date.isoformat
          genre1 := a.genre1
          genre2 := a.genre2
          comment := a.comment
          cover_image_data := cid
          cover_image_format := cif
          rank := ((idx + 1 : Nat) : Int)
          points := pointsMappingGet (idx + 1)
          album_id := a.album_id.getD ""
          country := a.country.getD "" }
  | _, _ => .error PyErr.attributeError

/-- The export loop over all albums, carrying the 0-based index; the
first raised exception propagates. -/
def exportAlbums : Nat → List Album → Except PyErr (List SushAlbum)
  | _, [] => .ok []
  | idx, a :: rest =>
    match exportAlbumEntry idx a with
    | .error e => .error e
    | .ok e =>
      match exportAlbums (idx + 1) rest with
      | .error e2 => .error e2
      | .ok es => .ok (e :: es)

/-- `CURRENT_FORMAT_VERSION` of `AlbumListManager`. -/
def CURRENT_FORMAT_VERSION : Int := 1

/-- The data structure built by `export_to_new_format`
(src/utils/album_list_manager.py lines 119-177), before it is written to
the destination file.  `now` is `datetime.now().isoformat()`.  The error
case is the `AttributeError` escaping the album loop (the loop runs
before the `try` around the file write). -/
def exportToNewFormat (albums : List Album) (metadata : ListMetaIn)
    (now : String) : Except PyErr SushData :=
  match exportAlbums 0 albums with
  | .error e => .error e
  | .ok entries =>
    .ok { format_version := CURRENT_FORMAT_VERSION
          metadata :=
            { title := metadata.title.getD "My Album List"
              description := metadata.description.getD ""
              date_created := metadata.date_created.getD now
              date_modified := now
              album_count := albums.length }
          albums := entries }

/-- One iteration of the `import_from_new_format` album loop
(src/utils/album_list_manager.py lines 247-282): parse the ISO release
date (falling back to `today` on a missing value or a `ValueError`),
then call `Album(...)` with the keywords of `codecAlbumKwargs`.  Since
`cover_image_data` and `cover_image_format` are not parameters of
`Album.__init__`, that call raises `TypeError`; the `.ok` branch models
the object the call would build (including the `album_id` / `country` /
`rank` / `points` attributes attached right after construction). -/
def importNewAlbum (e : SushAlbum) (today : Date) : Except PyErr Album :=
  let release_date :=
    match e.release_date with
    | some s => (dateFromIsoformat s).getD today
    | none => today
  if codecAlbumKwargs.all (fun k => albumInitParams.contains k) then
    .ok { artist := e.artist
          name := e.title
          release_date := some release_date
          genre1 := e.genre1
          genre2 := e.genre2
          comment := e.comment
          cover_image := none
          cover_image_data := some e.cover_image_data
          cover_image_format := some e.cover_image_format
          album_id := some e.album_id
          country := some e.country
          rank := some e.rank
          points := some e.points }
  else .error PyErr.typeError

/-- The `import_from_new_format` album loop. -/
def importAlbumsNew (entries : List SushAlbum) (today : Date) :
    Except PyErr (List Album) :=
  match entries with
  | [] => .ok []
  | e :: rest =>
    match importNewAlbum e today with
    | .error err => .error err
    | .ok a =>
      match importAlbumsNew rest today with
      | .error err => .error err
      | .ok as' => .ok (a :: as')

/-- `import_from_new_format` (src/utils/album_list_manager.py lines
218-291) applied to the parsed JSON object of the file.  The whole body
runs under `except Exception`, re-raised as
`ImportError` (`importErrorOf`). -/
def importFromNewFormatData (d : SushData) (today : Date) :
    Except PyErr (List Album × SushMeta) :=
  match importAlbumsNew d.albums today with
  | .ok albums => .ok (albums, d.metadata)
  | .error e => .error (PyErr.importErrorOf e)

/-! ### Legacy format (`import_from_old_format`) -/

/-- One element of a legacy-format JSON array, projected to the keys the
importer reads; `none` models an absent key. -/
structure OldEntry where
  artist : Option String := none
  album : Option String := none
  release_date : Option String := none
  genre_1 : Option String := none
  genre_2 : Option String := none
  comments : Option String := none
  cover_image : Option String := none
  cover_image_format : Option String := none
  album_id : Option String := none
  country : Option String := none
  rank : Option Int := none
deriving DecidableEq

/-- The metadata dict returned by `import_from_old_format`. -/
structure OldMeta where
  title : String
  description : String
  date_created : String
  date_modified : String
  source_file : String
  album_count : Nat
deriving DecidableEq

/-- The legacy release-date parse (src/utils/album_list_manager.py lines
66-74): `day, month, year = map(int, s.split('-'))`, then
`date(year, month, day)`; any `ValueError`/`AttributeError` (wrong field
count, non-numeric, invalid calendar date) falls back to `date.today()`.
-/
def parseLegacyDate (s : String) (today : Date) : Date :=
  match (pySplitChar '-' s.data).map pyInt with
  | [some d, some m, some y] => (dateNew y m d).getD today
  | _ => today

/-- `os.path.basename` / `Path(...).name` for POSIX-style paths. -/
def pathName (p : String) : String :=
  (p.splitOn "/").getLastD ""

/-- `Path(file_path).stem`: the final component without its suffix; a
suffix is a final `"."`-part that is neither leading nor trailing. -/
def pathStem (p : String) : String :=
  let n := (pathName p).data
  let j := n.reverse.indexOf '.'
  if ('.' ∈ n) ∧ 0 < n.length - 1 - j ∧ j ≠ 0 then
    ⟨n.take (n.length - 1 - j)⟩
  else ⟨n⟩

/-- One iteration of the `import_from_old_format` album loop
(src/utils/album_list_manager.py lines 64-98): parse the legacy date,
then call `Album(...)` with the keywords of `codecAlbumKwargs`, which
raises `TypeError` because `cover_image_data` / `cover_image_format` are
not parameters of `Album.__init__`; the `.ok` branch models the object
the call would build, with the `album_id` / `country` / `rank`
attributes attached after construction. -/
def importOldAlbum (idx : Nat) (e : OldEntry) (today : Date) :
    Except PyErr Album :=
  let release_date := parseLegacyDate (e.release_date.getD "") today
  if codecAlbumKwargs.all (fun k => albumInitParams.contains k) then
    .ok { artist := e.artist.getD ""
          name := e.album.getD ""
          release_date := some release_date
          genre1 := e.genre_1.getD ""
          genre2 := e.genre_2.getD ""
          comment := e.comments.getD ""
          cover_image := none
          cover_image_data := some e.cover_image
          cover_image_format := some (some (e.cover_image_format.getD "PNG"))
          album_id := some (e.album_id.getD "")
          country := some (e.country.getD "")
          rank := some (e.rank.getD ((idx + 1 : Nat) : Int)) }
  else .error PyErr.typeError

/-- The `import_from_old_format` album loop. -/
def importAlbumsOld : Nat → List OldEntry → Date → Except PyErr (List Album)
  | _, [], _ => .ok []
  | idx, e :: rest, today =>
    match importOldAlbum idx e today with
    | .error err => .error err
    | .ok a =>
      match importAlbumsOld (idx + 1) rest today with
      | .error err => .error err
      | .ok as' => .ok (a :: as')

/-- `import_from_old_format` (src/utils/album_list_manager.py lines
43-117) applied to the parsed JSON array of the file at `file_path`.
`now` is `datetime.now().isoformat()`.  The whole body runs under
`except Exception`, re-raised as `ImportError` (`importErrorOf`). -/
def importFromOldFormatData (data : List OldEntry) (file_path : String)
    (today : Date) (now : String) : Except PyErr (List Album × OldMeta) :=
  match importAlbumsOld 0 data today with
  | .ok albums =>
    .ok (albums,
      { title := pathStem file_path
        description := "Imported from " ++ pathName file_path
        date_created := now
        date_modified := now
        source_file := file_path
        album_count := albums.length })
  | .error e => .error (PyErr.importErrorOf e)

/-! ### Filename sanitization (`_sanitize_filename`) -/

/-- The characters `_sanitize_filename` replaces
(src/utils/list_repository.py line 687). -/
def invalid_chars : List Char :=
  ['\\', '/', ':', '*', '?', '"', '<', '>', '|']

/-- Python `filename.replace(char, '_')`: every occurrence of `char`
becomes an underscore. -/
def pyReplaceAll (s : List Char) (c : Char) : List Char :=
  s.map (fun x => if x = c then '_' else x)

/-- `_sanitize_filename` (src/utils/list_repository.py lines 675-696) on
the character list: replace each invalid character in turn, then
truncate to 100 characters if longer. -/
def sanitizeChars (s : List Char) : List Char :=
  let replaced := invalid_chars.foldl pyReplaceAll s
  if replaced.length > 100 then replaced.take 100 else replaced

/-- `_sanitize_filename` on strings. -/
def sanitize_filename (s : String) : String :=
  ⟨sanitizeChars s.data⟩

/-! ### The repository (src/utils/list_repository.py) -/

/-- A Python `dict` with string keys, as an insertion-ordered association
list with unique keys (CPython 3.7+ semantics). -/
abbrev Dict (α : Type) : Type := List (String × α)

/-- `d[k]` / `d.get(k)`: the value at the first (on unique-key dicts:
the only) binding of `k`. -/
def dictGet {α : Type} : Dict α → String → Option α
  | [], _ => none
  | kv :: rest, k => if kv.1 = k then some kv.2 else dictGet rest k

/-- `k in d`. -/
def dictHasKey {α : Type} (d : Dict α) (k : String) : Bool :=
  (dictGet d k).isSome

/-- `d[k] = v`: update in place if the key exists, else append (CPython
3.7+ assignment on an insertion-ordered dict). -/
def dictSet {α : Type} : Dict α → String → α → Dict α
  | [], k, v => [(k, v)]
  | kv :: rest, k, v =>
    if kv.1 = k then (k, v) :: rest else kv :: dictSet rest k v

/-- `del d[k]`. -/
def dictDel {α : Type} (d : Dict α) (k : String) : Dict α :=
  d.filter (fun kv => kv.1 ≠ k)

/-- Contents of one file of the repository, as the parsed JSON shapes the
code distinguishes. -/
inductive FileContent where
  /-- a JSON object in the shape written by `export_to_new_format` -/
  | sushFile (d : SushData)
  /-- a JSON array in the legacy list shape -/
  | legacyFile (d : List OldEntry)
  /-- text that `json.load` rejects -/
  | invalidFile
deriving DecidableEq

/-- The sidecar metadata (`metadata.json`), as `_load_metadata` shapes
it.  In-memory state and the persisted file are identified because every
mutation in the source is immediately followed by `_save_metadata`. -/
structure RepoMetadata where
  recent_lists : List String
  favorite_lists : List String
  collections : Dict (List String)
deriving DecidableEq

/-- Repository state: the sidecar metadata plus the filesystem,
modelled as a map from paths to file contents. -/
structure RepoState where
  metadata : RepoMetadata
  fs : Dict FileContent
deriving DecidableEq

/-- `os.path.join(self.base_dir, "Lists")`, abstracted to a constant. -/
def listsDir : String := "Lists"

/-- `add_list_to_recent` (src/utils/list_repository.py lines 293-316) on
the `recent_lists` value: drop the path if already present, insert at the
front, keep the first 10 entries. -/
def addListToRecent (file_path : String) (recent_lists : List String) :
    List String :=
  let recent_lists :=
    if file_path ∈ recent_lists then recent_lists.erase file_path
    else recent_lists
  (file_path :: recent_lists).take 10

/-- `add_list_to_recent` as a state transformer (it also persists the
sidecar via `_save_metadata`). -/
def addListToRecentS (st : RepoState) (file_path : String) : RepoState :=
  { st with metadata :=
      { st.metadata with
        recent_lists := addListToRecent file_path st.metadata.recent_lists } }

/-- `_get_list_info` (src/utils/list_repository.py lines 250-291),
reduced to the `file_path` field of the info dict it returns: it yields
an info dict only when the file opens and parses as a JSON object (the
`.sush` shape); on a legacy array `data.get("metadata", {})` raises
`AttributeError`, and any exception makes it return `None`. -/
def listInfoPath (fs : Dict FileContent) (p : String) : Option String :=
  match dictGet fs p with
  | some (FileContent.sushFile _) => some p
  | _ => none

/-- `get_recent_lists` (src/utils/list_repository.py lines 158-182),
reduced to the `file_path` fields of the info dicts it returns: take the
first `limit` recent paths, keep those whose file exists and yields an
info dict. -/
def getRecentLists (st : RepoState) (limit : Nat) : List String :=
  (st.metadata.recent_lists.take limit).filterMap (fun p =>
    if dictHasKey st.fs p then listInfoPath st.fs p else none)

/-- `get_favorite_lists` (src/utils/list_repository.py lines 184-205),
reduced the same way. -/
def getFavoriteLists (st : RepoState) : List String :=
  st.metadata.favorite_lists.filterMap (fun p =>
    if dictHasKey st.fs p then listInfoPath st.fs p else none)

/-- `get_collections` (src/utils/list_repository.py lines 207-248),
reduced to collection names and the `file_path` fields of their info
dicts.  If the collections dict is empty it is replaced by the default
`{"My Collection": []}` and persisted (the `'collections' not in
metadata` branch is unrepresentable here since the field always exists).
Every collection is returned, with only its existing, readable member
paths. -/
def getCollections (st : RepoState) : RepoState × Dict (List String) :=
  let colls :=
    if st.metadata.collections = [] then [("My Collection", ([] : List String))]
    else st.metadata.collections
  let st1 := { st with metadata := { st.metadata with collections := colls } }
  (st1,
    colls.map (fun c =>
      (c.1, c.2.filterMap (fun p =>
        if dictHasKey st1.fs p then listInfoPath st1.fs p else none))))

/-- `import_from_new_format` reading its file from the filesystem: a
missing file raises `FileNotFoundError`, a legacy array raises
`AttributeError` at `data.get("format_version", 0)`, unparseable text
raises `json.JSONDecodeError` (a `ValueError`); all are re-raised as
`ImportError`. -/
def importFromNewFormatFS (fs : Dict FileContent) (path : String)
    (today : Date) : Except PyErr (List Album × SushMeta) :=
  match dictGet fs path with
  | none => .error (PyErr.importErrorOf PyErr.fileNotFound)
  | some (FileContent.sushFile d) => importFromNewFormatData d today
  | some (FileContent.legacyFile _) =>
    .error (PyErr.importErrorOf PyErr.attributeError)
  | some FileContent.invalidFile =>
    .error (PyErr.importErrorOf (PyErr.valueError "json"))

/-- `import_from_old_format` reading its file from the filesystem: a
missing file raises `FileNotFoundError`; on a JSON object,
`enumerate(data)` iterates the keys and `album_data.get` raises
`AttributeError` on the first (the object shape always has keys);
unparseable text raises a `ValueError`; all are re-raised as
`ImportError`. -/
def importFromOldFormatFS (fs : Dict FileContent) (path : String)
    (today : Date) (now : String) : Except PyErr (List Album × OldMeta) :=
  match dictGet fs path with
  | none => .error (PyErr.importErrorOf PyErr.fileNotFound)
  | some (FileContent.legacyFile d) => importFromOldFormatData d path today now
  | some (FileContent.sushFile _) =>
    .error (PyErr.importErrorOf PyErr.attributeError)
  | some FileContent.invalidFile =>
    .error (PyErr.importErrorOf (PyErr.valueError "json"))

/-- The metadata half of a successful `load_list` result. -/
inductive LoadedMeta where
  | current (m : SushMeta)
  | legacy (m : OldMeta)
deriving DecidableEq

/-- `load_list` (src/utils/list_repository.py lines 558-584): the path
is recorded as recent FIRST (line 570), then the extension is
dispatched; an extension that is neither `.sush` nor `.json` raises
`ValueError("Unsupported file format: ...")`. -/
def loadList (st : RepoState) (file_path : String) (today : Date)
    (now : String) : RepoState × Except PyErr (List Album × LoadedMeta) :=
  let st1 := addListToRecentS st file_path
  if pyEndsWith file_path ".sush" then
    (st1, (importFromNewFormatFS st1.fs file_path today).map
      (fun am => (am.1, LoadedMeta.current am.2)))
  else if pyEndsWith file_path ".json" then
    (st1, (importFromOldFormatFS st1.fs file_path today now).map
      (fun am => (am.1, LoadedMeta.legacy am.2)))
  else
    (st1, .error (PyErr.valueError ("Unsupported file format: " ++ file_path)))

/-- The effective file name of `save_list` (src/utils/list_repository.py
lines 531-543): the explicit `file_name` if truthy, else the metadata
title (default `"Untitled List"`); sanitized; `.sush` appended if
missing. -/
def saveFileName (metadata : ListMetaIn) (file_name : Option String) :
    String :=
  let fn :=
    match file_name with
    | none => metadata.title.getD "Untitled List"
    | some s => if s = "" then metadata.title.getD "Untitled List" else s
  let fn := sanitize_filename fn
  if pyEndsWith fn ".sush" then fn else fn ++ ".sush"

/-- The full target path of `save_list`. -/
def saveListPath (metadata : ListMetaIn) (file_name : Option String) :
    String :=
  listsDir ++ "/" ++ saveFileName metadata file_name

/-- `save_list` (src/utils/list_repository.py lines 518-556): build the
target path, export (the write inside `export_to_new_format` replaces
whatever file is at the path — no existence check anywhere), then record
the path as recent.  An exception escaping the export (the
`AttributeError` of the album loop) propagates before the file write and
before `add_list_to_recent`. -/
def saveList (st : RepoState) (albums : List Album) (metadata : ListMetaIn)
    (file_name : Option String) (now : String) :
    RepoState × Except PyErr String :=
  let path := saveListPath metadata file_name
  match exportToNewFormat albums metadata now with
  | .error e => (st, .error e)
  | .ok d =>
    let st1 := { st with fs := dictSet st.fs path (FileContent.sushFile d) }
    (addListToRecentS st1 path, .ok path)

/-- `delete_list` (src/utils/list_repository.py lines 586-637): `False`
if the file does not exist; otherwise remove the path from
`recent_lists`, `favorite_lists` and each collection's file list (an
emptied collection is kept, set to `[]` — unlike
`remove_from_collection`), persist the metadata, delete the file, return
`True`. -/
def deleteList (st : RepoState) (file_path : String) : RepoState × Bool :=
  match dictGet st.fs file_path with
  | none => (st, false)
  | some _ =>
    let md := st.metadata
    let st1 : RepoState :=
      { metadata :=
          { recent_lists := md.recent_lists.erase file_path
            favorite_lists := md.favorite_lists.erase file_path
            collections := md.collections.map (fun c =>
              if file_path ∈ c.2 then (c.1, c.2.erase file_path) else c) }
        fs := dictDel st.fs file_path }
    (st1, true)

/-- `rename_collection` (src/utils/list_repository.py lines 433-480):
`False` on a blank old or new name; `False` unless `old_name` is a key
and `new_name` is not; otherwise move the member list to `new_name`
(appended as a new key) and delete `old_name`.  The physical directory
rename is attempted but its failure is tolerated; it is not part of the
metadata state. -/
def renameCollection (st : RepoState) (old_name new_name : String) :
    RepoState × Bool :=
  if pyStrBlank old_name || pyStrBlank new_name then (st, false)
  else
    let collections := st.metadata.collections
    if dictHasKey collections old_name && !dictHasKey collections new_name then
      let files := (dictGet collections old_name).getD []
      ({ st with metadata :=
          { st.metadata with
            collections := dictDel (dictSet collections new_name files)
              old_name } }, true)
    else (st, false)

/-- `remove_from_collection` (src/utils/list_repository.py lines
375-399): if the collection exists and contains the path, remove the
path; if the member list becomes empty, delete the collection entry
entirely; persist.  Otherwise do nothing. -/
def removeFromCollection (st : RepoState) (file_path collection_name : String) :
    RepoState :=
  let collections := st.metadata.collections
  match dictGet collections collection_name with
  | some files =>
    if file_path ∈ files then
      let files2 := files.erase file_path
      let c1 :=
        if files2 = [] then dictDel collections collection_name
        else dictSet collections collection_name files2
      { st with metadata := { st.metadata with collections := c1 } }
    else st
  | none => st

/-! ### Shared helper lemmas -/

theorem dictGet_dictSet_self {α : Type} (d : Dict α) (k : String) (v : α) :
    dictGet (dictSet d k v) k = some v := by
  induction d with
  | nil => simp [dictSet, dictGet]
  | cons kv rest ih =>
    by_cases h : kv.1 = k
    · simp [dictSet, dictGet, h]
    · simp [dictSet, dictGet, h, ih]

theorem dictGet_dictDel_self {α : Type} (d : Dict α) (k : String) :
    dictGet (dictDel d k) k = none := by
  induction d with
  | nil => rfl
  | cons kv rest ih =>
    by_cases h : kv.1 = k
    · simpa [dictDel, h] using ih
    · simpa [dictDel, dictGet, h] using ih

theorem not_mem_keys_dictDel {α : Type} (d : Dict α) (k : String) :
    k ∉ (dictDel d k).map Prod.fst := by
  intro hmem
  obtain ⟨kv, hkv, hfst⟩ := List.mem_map.mp hmem
  have := (List.mem_filter.mp hkv).2
  simp [hfst] at this

theorem filterMap_self_sublist {α : Type} (f : α → Option α)
    (hf : ∀ a, f a = none ∨ f a = some a) (l : List α) :
    (l.filterMap f).Sublist l := by
  induction l with
  | nil => simp
  | cons a l ih =>
    rcases hf a with h | h
    · rw [List.filterMap_cons, h]
      exact ih.cons a
    · rw [List.filterMap_cons, h]
      exact ih.cons₂ a

theorem listInfoPath_none_or_self (fs : Dict FileContent) (p : String) :
    (if dictHasKey fs p then listInfoPath fs p else none) = none ∨
    (if dictHasKey fs p then listInfoPath fs p else none) = some p := by
  by_cases h : dictHasKey fs p
  · rw [if_pos h]
    unfold listInfoPath
    match dictGet fs p with
    | none => exact Or.inl rfl
    | some (FileContent.sushFile _) => exact Or.inr rfl
    | some (FileContent.legacyFile _) => exact Or.inl rfl
    | some FileContent.invalidFile => exact Or.inl rfl
  · rw [if_neg h]
    exact Or.inl rfl

/-! ### C7: filename sanitization -/

theorem mem_foldl_pyReplaceAll (cs : List Char) (s : List Char) (x : Char)
    (hx : x ∈ cs.foldl pyReplaceAll s) : x = '_' ∨ (x ∈ s ∧ x ∉ cs) := by
  induction cs generalizing s with
  | nil => exact Or.inr ⟨hx, by simp⟩
  | cons c cs ih =>
    rcases ih (pyReplaceAll s c) hx with h | ⟨hmem, hnot⟩
    · exact Or.inl h
    · obtain ⟨y, hy, hyx⟩ := List.mem_map.mp hmem
      by_cases hyc : y = c
      · rw [if_pos hyc] at hyx
        exact Or.inl hyx.symm
      · rw [if_neg hyc] at hyx
        subst hyx
        exact Or.inr ⟨hy, by simp [hyc, hnot]⟩

theorem foldl_pyReplaceAll_fixed (cs : List Char) (s : List Char)
    (h : ∀ x ∈ s, x ∉ cs) : cs.foldl pyReplaceAll s = s := by
  induction cs generalizing s with
  | nil => rfl
  | cons c cs ih =>
    have hs : pyReplaceAll s c = s := by
      unfold pyReplaceAll
      conv_rhs => rw [← List.map_id s]
      apply List.map_congr_left
      intro a ha
      have hac : a ≠ c := fun hac => (h a ha) (by simp [hac])
      simp [hac]
    rw [List.foldl_cons, hs]
    exact ih s (fun x hx hmem => h x hx (by simp [hmem]))

theorem sanitizeChars_length (s : List Char) : (sanitizeChars s).length ≤ 100 := by
  simp only [sanitizeChars]
  split
  · simp
  · omega

theorem sanitizeChars_not_invalid (s : List Char) :
    ∀ x ∈ sanitizeChars s, x ∉ invalid_chars := by
  intro x hx
  have hx' : x ∈ invalid_chars.foldl pyReplaceAll s := by
    simp only [sanitizeChars] at hx
    split at hx
    · exact List.mem_of_mem_take hx
    · exact hx
  rcases mem_foldl_pyReplaceAll _ _ _ hx' with h | ⟨_, hnot⟩
  · subst h; decide
  · exact hnot

theorem sanitizeChars_of_fixed (t : List Char)
    (hfix : invalid_chars.foldl pyReplaceAll t = t) (hlen : t.length ≤ 100) :
    sanitizeChars t = t := by
  simp only [sanitizeChars]
  rw [hfix, if_neg (by omega)]

theorem sanitizeChars_idem (s : List Char) :
    sanitizeChars (sanitizeChars s) = sanitizeChars s :=
  sanitizeChars_of_fixed _
    (foldl_pyReplaceAll_fixed _ _ (sanitizeChars_not_invalid s))
    (sanitizeChars_length s)

/-- C7: `sanitize_filename` is idempotent, its output contains none of
the characters `\ / : * ? " < > |`, and its output is at most 100
characters long. -/
theorem sanitize_filename_ok (x : String) :
    sanitize_filename (sanitize_filename x) = sanitize_filename x ∧
    (sanitize_filename x).data.all (fun c => !invalid_chars.contains c) = true ∧
    (sanitize_filename x).length ≤ 100 := by
  refine ⟨?_, ?_, ?_⟩
  · show (⟨sanitizeChars (sanitizeChars x.data)⟩ : String) = ⟨sanitizeChars x.data⟩
    rw [sanitizeChars_idem]
  · rw [List.all_eq_true]
    intro c hc
    have h := sanitizeChars_not_invalid x.data c hc
    simpa using h
  · exact sanitizeChars_length x.data

/-! ### C2: load_list on an unsupported extension -/

/-- C2 (amended): on a path ending in neither `.sush` nor `.json`,
`load_list` raises the unsupported-format `ValueError`, but only after
recording the path at the head of `recent_lists` and persisting the
sidecar; nothing else in the state changes. -/
theorem load_list_unsupported (st : RepoState) (path : String) (today : Date)
    (now : String) (h1 : pyEndsWith path ".sush" = false)
    (h2 : pyEndsWith path ".json" = false) :
    loadList st path today now =
      (addListToRecentS st path,
       .error (PyErr.valueError ("Unsupported file format: " ++ path))) := by
  unfold loadList
  rw [h1, h2]
  simp

/-- A fresh repository state: empty recents and favorites, the default
collection, no files. -/
def c2FreshState : RepoState where
  metadata :=
    { recent_lists := []
      favorite_lists := []
      collections := [("My Collection", [])] }
  fs := []

/-- C2 witness for `load_list_unsupported` at `"foo.txt"`. -/
theorem load_list_unsupported_witness :
    loadList c2FreshState "foo.txt" ⟨2024, 1, 2⟩ "N" =
      (addListToRecentS c2FreshState "foo.txt",
       .error (PyErr.valueError ("Unsupported file format: " ++ "foo.txt"))) :=
  load_list_unsupported _ "foo.txt" _ _ (by decide) (by decide)

/-- C2 counterexample against the claim as stated: `load_list` on
`"foo.txt"` does raise the unsupported-format error, but the sidecar is
modified — the path is now the head of `recent_lists`. -/
theorem load_list_sidecar_changed :
    (loadList c2FreshState "foo.txt" ⟨2024, 1, 2⟩ "N").2 =
      .error (PyErr.valueError "Unsupported file format: foo.txt") ∧
    (loadList c2FreshState "foo.txt" ⟨2024, 1, 2⟩
      "N").1.metadata.recent_lists = ["foo.txt"] :=
  ⟨rfl, rfl⟩

/-! ### C8: rename_collection failure conditions -/

/-- C8 (amended): `rename_collection` returns `false` exactly when the
old name is blank, the new name is blank, the old name is not an
existing collection, or the new name is already an existing collection;
and whenever it returns `false` the state is unchanged (so an existing
collection is never overwritten). -/
theorem rename_collection_false_iff (st : RepoState)
    (old_name new_name : String) :
    ((renameCollection st old_name new_name).2 = false ↔
      (pyStrBlank old_name = true ∨ pyStrBlank new_name = true ∨
       dictHasKey st.metadata.collections old_name = false ∨
       dictHasKey st.metadata.collections new_name = true)) ∧
    ((renameCollection st old_name new_name).2 = false →
      (renameCollection st old_name new_name).1 = st) := by
  cases hob : pyStrBlank old_name <;> cases hnb : pyStrBlank new_name <;>
    cases hok : dictHasKey st.metadata.collections old_name <;>
    cases hnk : dictHasKey st.metadata.collections new_name <;>
    simp [renameCollection, hob, hnb, hok, hnk]

/-- A repository state holding one collection named `"A"`. -/
def c8StateA : RepoState where
  metadata :=
    { recent_lists := []
      favorite_lists := []
      collections := [("A", [])] }
  fs := []

/-- C8 witness: `rename_collection_false_iff` applied at a state with
collection `"A"` and a blank target name forces a `false` result with an
unchanged state. -/
theorem rename_collection_false_iff_witness :
    (renameCollection c8StateA "A" " ").2 = false ∧
    (renameCollection c8StateA "A" " ").1 = c8StateA := by
  have h := rename_collection_false_iff c8StateA "A" " "
  have hfalse := h.1.mpr (Or.inr (Or.inl (by decide)))
  exact ⟨hfalse, h.2 hfalse⟩

/-- C8 counterexample against the claim as stated: renaming existing
collection `"A"` to the blank name `" "` returns `false` although `"A"`
exists and `" "` does not — the claimed "exactly when" fails. -/
theorem rename_collection_blank_rejected :
    (renameCollection c8StateA "A" " ").2 = false ∧
    dictHasKey c8StateA.metadata.collections "A" = true ∧
    dictHasKey c8StateA.metadata.collections " " = false := by
  decide

/-! ### C10: remove_from_collection on the last member -/

/-- C10 (amended): removing the only member of a collection deletes the
collection's entry from the mapping entirely, and `get_collections` no
longer lists it — unless the mapping is then empty, in which case
`get_collections` recreates the default `"My Collection"` (so exactly
the name `"My Collection"` can reappear, with an empty member list). -/
theorem remove_last_member_deletes_collection (st : RepoState)
    (c p : String) (h : dictGet st.metadata.collections c = some [p]) :
    (removeFromCollection st p c).metadata.collections =
      dictDel st.metadata.collections c ∧
    dictGet (removeFromCollection st p c).metadata.collections c = none ∧
    c ∉ (removeFromCollection st p c).metadata.collections.map Prod.fst ∧
    ((getCollections (removeFromCollection st p c)).2.map Prod.fst =
      if (removeFromCollection st p c).metadata.collections = []
      then ["My Collection"]
      else (removeFromCollection st p c).metadata.collections.map Prod.fst) := by
  have h1 : removeFromCollection st p c =
      { st with metadata :=
          { st.metadata with
            collections := dictDel st.metadata.collections c } } := by
    simp only [removeFromCollection, h]
    simp
  refine ⟨by rw [h1], ?_, ?_, ?_⟩
  · rw [h1]
    exact dictGet_dictDel_self _ _
  · rw [h1]
    exact not_mem_keys_dictDel _ _
  · unfold getCollections
    split
    · simp
    · simp

/-- A repository state with two collections, `"A"` and `"B"`. -/
def c10StateAB : RepoState where
  metadata :=
    { recent_lists := []
      favorite_lists := []
      collections := [("A", ["p"]), ("B", ["q"])] }
  fs := []

/-- C10 witness: removing `"p"`, the only member of `"A"`, in a state
that also holds `"B"`, deletes the `"A"` entry and `get_collections`
then lists only `"B"`. -/
theorem remove_last_member_deletes_collection_witness :
    (removeFromCollection c10StateAB "p" "A").metadata.collections =
      dictDel c10StateAB.metadata.collections "A" ∧
    dictGet (removeFromCollection c10StateAB "p" "A").metadata.collections
      "A" = none ∧
    "A" ∉ (removeFromCollection c10StateAB "p" "A").metadata.collections.map
      Prod.fst ∧
    ((getCollections (removeFromCollection c10StateAB "p" "A")).2.map
        Prod.fst =
      if (removeFromCollection c10StateAB "p" "A").metadata.collections = []
      then ["My Collection"]
      else (removeFromCollection c10StateAB "p" "A").metadata.collections.map
        Prod.fst) :=
  remove_last_member_deletes_collection c10StateAB "A" "p" (by decide)

/-- A repository state whose only collection is the default
`"My Collection"`, holding the single member `"p1"`. -/
def c10StateDefault : RepoState where
  metadata :=
    { recent_lists := []
      favorite_lists := []
      collections := [("My Collection", ["p1"])] }
  fs := []

/-- C10 counterexample against the claim as stated: after removing the
only member of `"My Collection"` (the only collection), the entry is
deleted from the mapping, yet `get_collections` still returns a
collection named `"My Collection"` — the emptied name reappears. -/
theorem removed_collection_reappears :
    dictGet c10StateDefault.metadata.collections "My Collection" =
      some ["p1"] ∧
    dictGet (removeFromCollection c10StateDefault "p1"
      "My Collection").metadata.collections "My Collection" = none ∧
    (getCollections (removeFromCollection c10StateDefault "p1"
      "My Collection")).2.map Prod.fst = ["My Collection"] := by
  decide

/-! ### C9: save_list overwrites silently -/

/-- C9: `save_list` never checks for an existing file: two saves whose
effective names produce the same target path both return that path, and
the second save replaces the first file's content in the lists
directory, whatever the starting state. -/
theorem save_list_overwrites (st : RepoState)
    (albums1 albums2 : List Album) (m1 m2 : ListMetaIn)
    (n1 n2 : Option String) (now1 now2 : String) (d1 d2 : SushData)
    (he1 : exportToNewFormat albums1 m1 now1 = .ok d1)
    (he2 : exportToNewFormat albums2 m2 now2 = .ok d2)
    (hname : saveListPath m1 n1 = saveListPath m2 n2) :
    (saveList st albums1 m1 n1 now1).2 = .ok (saveListPath m1 n1) ∧
    dictGet (saveList st albums1 m1 n1 now1).1.fs (saveListPath m1 n1) =
      some (FileContent.sushFile d1) ∧
    (saveList (saveList st albums1 m1 n1 now1).1 albums2 m2 n2 now2).2 =
      .ok (saveListPath m1 n1) ∧
    dictGet (saveList (saveList st albums1 m1 n1 now1).1 albums2 m2 n2
      now2).1.fs (saveListPath m1 n1) = some (FileContent.sushFile d2) := by
  refine ⟨?_, ?_, ?_, ?_⟩
  · simp [saveList, he1]
  · simp [saveList, he1, addListToRecentS, dictGet_dictSet_self]
  · simp [saveList, he1, he2, ← hname]
  · simp [saveList, he1, he2, ← hname, addListToRecentS, dictGet_dictSet_self]

/-- Starting repository state of the C9 witness. -/
def c9StartState : RepoState where
  metadata :=
    { recent_lists := []
      favorite_lists := []
      collections := [("My Collection", [])] }
  fs := []

/-- First saved list metadata of the C9 witness: title `"a/b"`. -/
def c9Meta1 : ListMetaIn := { title := some "a/b", description := some "one" }

/-- Second saved list metadata of the C9 witness: the different title
`"a_b"`, which sanitizes to the same filename. -/
def c9Meta2 : ListMetaIn := { title := some "a_b", description := some "two" }

/-- What `export_to_new_format` builds for an empty album list with
`c9Meta1` at time `"T1"`. -/
def c9Data1 : SushData where
  format_version := 1
  metadata :=
    { title := "a/b"
      description := "one"
      date_created := "T1"
      date_modified := "T1"
      album_count := 0 }
  albums := []

/-- What `export_to_new_format` builds for an empty album list with
`c9Meta2` at time `"T2"`. -/
def c9Data2 : SushData where
  format_version := 1
  metadata :=
    { title := "a_b"
      description := "two"
      date_created := "T2"
      date_modified := "T2"
      album_count := 0 }
  albums := []

/-- C9 witness: two saves with the distinct unsanitized titles `"a/b"`
and `"a_b"` hit the same path and the second overwrites the first. -/
theorem save_list_overwrites_witness :
    c9Meta1.title ≠ c9Meta2.title ∧
    (saveList c9StartState [] c9Meta1 none "T1").2 =
      .ok (saveListPath c9Meta1 none) ∧
    dictGet (saveList c9StartState [] c9Meta1 none "T1").1.fs
      (saveListPath c9Meta1 none) = some (FileContent.sushFile c9Data1) ∧
    (saveList (saveList c9StartState [] c9Meta1 none "T1").1 [] c9Meta2
      none "T2").2 = .ok (saveListPath c9Meta1 none) ∧
    dictGet (saveList (saveList c9StartState [] c9Meta1 none "T1").1 []
      c9Meta2 none "T2").1.fs (saveListPath c9Meta1 none) =
      some (FileContent.sushFile c9Data2) := by
  have h := save_list_overwrites c9StartState [] [] c9Meta1 c9Meta2 none none
    "T1" "T2" c9Data1 c9Data2 (by rfl) (by rfl) (by rfl)
  exact ⟨by decide, h.1, h.2.1, h.2.2.1, h.2.2.2⟩

/-! ### C1, C3, C5: codec behavior -/

instance {ε α : Type} [DecidableEq ε] [DecidableEq α] :
    DecidableEq (Except ε α) := fun a b =>
  match a, b with
  | .ok x, .ok y =>
    if h : x = y then .isTrue (by rw [h]) else .isFalse (by simp [h])
  | .error x, .error y =>
    if h : x = y then .isTrue (by rw [h]) else .isFalse (by simp [h])
  | .ok _, .error _ => .isFalse (by simp)
  | .error _, .ok _ => .isFalse (by simp)

theorem exportAlbums_ok_length (k : Nat) (as' : List Album)
    (l : List SushAlbum) (h : exportAlbums k as' = .ok l) :
    l.length = as'.length := by
  induction as' generalizing k l with
  | nil => simp [exportAlbums] at h; simp [← h]
  | cons a rest ih =>
    simp only [exportAlbums] at h
    cases hE : exportAlbumEntry k a with
    | error e => rw [hE] at h; simp at h
    | ok e =>
      rw [hE] at h
      cases hR : exportAlbums (k + 1) rest with
      | error e2 => rw [hR] at h; simp at h
      | ok es =>
        rw [hR] at h
        simp at h
        simp [← h, ih _ _ hR]

theorem exportToNewFormat_albums_length (albums : List Album)
    (m : ListMetaIn) (now : String) (d : SushData)
    (he : exportToNewFormat albums m now = .ok d) :
    d.albums.length = albums.length := by
  unfold exportToNewFormat at he
  cases hE : exportAlbums 0 albums <;> rw [hE] at he
  · simp at he
  · simp at he
    rw [← he]
    exact exportAlbums_ok_length 0 albums _ hE

theorem importAlbumsNew_cons (e : SushAlbum) (rest : List SushAlbum)
    (today : Date) :
    importAlbumsNew (e :: rest) today = .error PyErr.typeError := by
  simp only [importAlbumsNew, importNewAlbum]
  rw [if_neg (by decide)]

theorem importFromNewFormatData_err (d : SushData) (today : Date)
    (hne : d.albums ≠ []) :
    importFromNewFormatData d today =
      .error (PyErr.importErrorOf PyErr.typeError) := by
  unfold importFromNewFormatData
  cases hA : d.albums with
  | nil => exact absurd hA hne
  | cons e rest => rw [importAlbumsNew_cons]

/-- C1 (code bug evaluation): the current-format round trip is
impossible for any non-empty album list.  Whenever
`export_to_new_format` succeeds, `import_from_new_format` on the written
data raises `ImportError` — the `Album(...)` call at
src/utils/album_list_manager.py lines 260-270 passes the keywords
`cover_image_data` and `cover_image_format`, which `Album.__init__`
(src/models/album.py line 12) does not accept, so every album entry
raises `TypeError`. -/
theorem roundtrip_decode_fails (albums : List Album) (m : ListMetaIn)
    (now : String) (today : Date) (d : SushData)
    (he : exportToNewFormat albums m now = .ok d) (hne : albums ≠ []) :
    importFromNewFormatData d today =
      .error (PyErr.importErrorOf PyErr.typeError) := by
  apply importFromNewFormatData_err
  have hlen := exportToNewFormat_albums_length albums m now d he
  intro hnil
  rw [hnil] at hlen
  exact hne (List.length_eq_zero.mp hlen.symm)

/-- The C1 witness album: constructed fields from `Album.__init__`, with
the `cover_image_data` / `cover_image_format` attributes attached (as
the UI layer does), so that the export loop succeeds. -/
def c1Album : Album where
  artist := "Daft Punk"
  name := "Discovery"
  release_date := some ⟨2001, 3, 12⟩
  genre1 := "Electronic"
  genre2 := "House"
  comment := ""
  cover_image := none
  cover_image_data := some none
  cover_image_format := some (some "PNG")

/-- The data `export_to_new_format` builds for `[c1Album]` at time
`"T"`. -/
def c1Data : SushData where
  format_version := 1
  metadata :=
    { title := "My Album List"
      description := ""
      date_created := "T"
      date_modified := "T"
      album_count := 1 }
  albums :=
    [{ artist := "Daft Punk"
       title := "Discovery"
       release_date := some "2001-03-12"
       genre1 := "Electronic"
       genre2 := "House"
       comment := ""
       cover_image_data := none
       cover_image_format := some "PNG"
       rank := 1
       points := 60
       album_id := ""
       country := "" }]

/-- C1 witness: the concrete one-album round trip — export succeeds and
decode of the exported data fails with the wrapped `TypeError`. -/
theorem roundtrip_decode_fails_witness :
    exportToNewFormat [c1Album] {} "T" = .ok c1Data ∧
    importFromNewFormatData c1Data ⟨2024, 1, 2⟩ =
      .error (PyErr.importErrorOf PyErr.typeError) :=
  ⟨by decide,
   roundtrip_decode_fails [c1Album] {} "T" ⟨2024, 1, 2⟩ c1Data (by decide)
     (by decide)⟩

theorem importAlbumsOld_cons (idx : Nat) (e : OldEntry)
    (rest : List OldEntry) (today : Date) :
    importAlbumsOld idx (e :: rest) today = .error PyErr.typeError := by
  simp only [importAlbumsOld, importOldAlbum]
  rw [if_neg (by decide)]

/-- C3 (code bug evaluation): `import_from_old_format` raises
`ImportError` on every non-empty legacy array, malformed date or not —
the `Album(...)` call at src/utils/album_list_manager.py lines 81-91
passes the keywords `cover_image_data` and `cover_image_format`, which
`Album.__init__` (src/models/album.py line 12) does not accept, so the
first album entry raises `TypeError` before the date fallback can
matter. -/
theorem legacy_import_fails (entries : List OldEntry) (fp : String)
    (today : Date) (now : String) (hne : entries ≠ []) :
    importFromOldFormatData entries fp today now =
      .error (PyErr.importErrorOf PyErr.typeError) := by
  cases entries with
  | nil => exact absurd rfl hne
  | cons e rest =>
    unfold importFromOldFormatData
    rw [importAlbumsOld_cons]

/-- The C3 witness entry: the spec's malformed-date album
`{"artist": "A", "album": "B", "release_date": "not-a-date",
"genre_1": "Rock"}`. -/
def c3Entry : OldEntry where
  artist := some "A"
  album := some "B"
  release_date := some "not-a-date"
  genre_1 := some "Rock"

/-- C3 witness: decoding the one-entry legacy list with the malformed
date fails with the wrapped `TypeError` instead of producing an album
dated today. -/
theorem legacy_import_fails_witness :
    importFromOldFormatData [c3Entry] "list.json" ⟨2024, 1, 2⟩ "N" =
      .error (PyErr.importErrorOf PyErr.typeError) :=
  legacy_import_fails [c3Entry] "list.json" ⟨2024, 1, 2⟩ "N" (by decide)

theorem exportAlbumEntry_ok (k : Nat) (a : Album) (e : SushAlbum)
    (h : exportAlbumEntry k a = .ok e) :
    e.rank = ((k + 1 : Nat) : Int) ∧ e.points = pointsMappingGet (k + 1) := by
  unfold exportAlbumEntry at h
  rcases hcd : a.cover_image_data with _ | cid <;> rw [hcd] at h
  · simp at h
  · rcases hcf : a.cover_image_format with _ | cif <;> rw [hcf] at h
    · simp at h
    · simp at h
      rw [← h]
      exact ⟨rfl, rfl⟩

theorem exportAlbums_ok_get (k : Nat) (as' : List Album)
    (l : List SushAlbum) (h : exportAlbums k as' = .ok l) (i : Nat)
    (hi : i < l.length) :
    (l.get ⟨i, hi⟩).rank = ((k + i + 1 : Nat) : Int) ∧
    (l.get ⟨i, hi⟩).points = pointsMappingGet (k + i + 1) := by
  induction as' generalizing k l i with
  | nil =>
    simp [exportAlbums] at h
    subst h
    exact absurd hi (by simp)
  | cons a rest ih =>
    simp only [exportAlbums] at h
    cases hE : exportAlbumEntry k a with
    | error e => rw [hE] at h; simp at h
    | ok e =>
      rw [hE] at h
      cases hR : exportAlbums (k + 1) rest with
      | error e2 => rw [hR] at h; simp at h
      | ok es =>
        rw [hR] at h
        simp at h
        subst h
        cases i with
        | zero =>
          simpa using exportAlbumEntry_ok k a e hE
        | succ i' =>
          have h2 := ih (k + 1) es hR i' (by simpa using hi)
          have harith : k + 1 + i' + 1 = k + (i' + 1) + 1 := by omega
          rw [harith] at h2
          simpa using h2

theorem one_le_pointsMappingGet (r : Nat) : 1 ≤ pointsMappingGet r := by
  unfold pointsMappingGet
  split
  · exact le_max_left 1 _
  · exact le_refl 1

theorem pointsMappingGet_antitone (r1 r2 : Nat) (h1 : 1 ≤ r1)
    (h : r1 ≤ r2) : pointsMappingGet r2 ≤ pointsMappingGet r1 := by
  unfold pointsMappingGet
  by_cases hA : 1 ≤ r2 ∧ r2 ≤ 60
  · rw [if_pos hA, if_pos ⟨h1, by omega⟩]
    have e1 : (1 : Int) ≤ 61 - (r1 : Nat) := by omega
    have e2 : (1 : Int) ≤ 61 - (r2 : Nat) := by omega
    rw [max_eq_right e1, max_eq_right e2]
    omega
  · rw [if_neg hA]
    by_cases hB : 1 ≤ r1 ∧ r1 ≤ 60
    · rw [if_pos hB]
      exact le_max_left 1 _
    · rw [if_neg hB]

theorem pointsMappingGet_floor (r : Nat) (h : 60 < r) :
    pointsMappingGet r = 1 := by
  unfold pointsMappingGet
  rw [if_neg (by omega)]

/-- C5: in the data built by `export_to_new_format`, the entry at
0-based position `i` has `rank = i + 1`; points are monotonically
non-increasing along positions; every points value is at least 1; and a
rank beyond the 60-entry points table receives exactly 1 point. -/
theorem export_rank_points (albums : List Album) (m : ListMetaIn)
    (now : String) (d : SushData) (i j : Nat)
    (he : exportToNewFormat albums m now = .ok d) (hij : i ≤ j)
    (hj : j < d.albums.length) :
    (d.albums.get ⟨i, lt_of_le_of_lt hij hj⟩).rank = ((i + 1 : Nat) : Int) ∧
    (d.albums.get ⟨j, hj⟩).points ≤
      (d.albums.get ⟨i, lt_of_le_of_lt hij hj⟩).points ∧
    1 ≤ (d.albums.get ⟨j, hj⟩).points ∧
    (60 < j + 1 → (d.albums.get ⟨j, hj⟩).points = 1) := by
  have hE : exportAlbums 0 albums = .ok d.albums := by
    unfold exportToNewFormat at he
    cases hE : exportAlbums 0 albums <;> rw [hE] at he
    · simp at he
    · simp at he
      rw [← he]
  have hgi := exportAlbums_ok_get 0 albums d.albums hE i
    (lt_of_le_of_lt hij hj)
  have hgj := exportAlbums_ok_get 0 albums d.albums hE j hj
  simp only [Nat.zero_add] at hgi hgj
  refine ⟨hgi.1, ?_, ?_, ?_⟩
  · rw [hgi.2, hgj.2]
    exact pointsMappingGet_antitone (i + 1) (j + 1) (by omega) (by omega)
  · rw [hgj.2]
    exact one_le_pointsMappingGet (j + 1)
  · intro hfloor
    rw [hgj.2]
    exact pointsMappingGet_floor (j + 1) hfloor

/-- The 61-album input of the C5 witness. -/
def c5Albums : List Album := List.replicate 61 c1Album

/-- The data `export_to_new_format` builds for `c5Albums` at time
`"T"`: ranks 1..61 with the table points for ranks 1..60 and the floor
value 1 at rank 61. -/
def c5Data : SushData where
  format_version := 1
  metadata :=
    { title := "My Album List"
      description := ""
      date_created := "T"
      date_modified := "T"
      album_count := 61 }
  albums :=
    (List.range 61).map (fun i =>
      { artist := "Daft Punk"
        title := "Discovery"
        release_date := some "2001-03-12"
        genre1 := "Electronic"
        genre2 := "House"
        comment := ""
        cover_image_data := none
        cover_image_format := some "PNG"
        rank := ((i + 1 : Nat) : Int)
        points := pointsMappingGet (i + 1)
        album_id := ""
        country := "" })

/-- C5 witness: `export_rank_points` at the 61-album export, positions
0 and 60: rank 1 at the head, non-increasing points, a positive points
value at the tail, and exactly 1 point at rank 61. -/
theorem export_rank_points_witness :
    exportToNewFormat c5Albums {} "T" = .ok c5Data ∧
    (c5Data.albums.get ⟨0, by decide⟩).rank = 1 ∧
    (c5Data.albums.get ⟨60, by decide⟩).points ≤
      (c5Data.albums.get ⟨0, by decide⟩).points ∧
    1 ≤ (c5Data.albums.get ⟨60, by decide⟩).points ∧
    (c5Data.albums.get ⟨60, by decide⟩).points = 1 := by
  have hexp : exportToNewFormat c5Albums {} "T" = .ok c5Data := by decide
  have h := export_rank_points c5Albums {} "T" c5Data 0 60 hexp
    (by omega) (by decide)
  exact ⟨hexp, h.1, h.2.1, h.2.2.1, h.2.2.2 (by omega)⟩

/-! ### C4: the recent-lists invariant -/

/-- One step of `add_list_to_recent` without the 10-entry truncation:
move the path to the front. -/
def addRecentCore (rl : List String) (p : String) : List String :=
  p :: rl.erase p

/-- Keep-first deduplication; `dedupKeepFirst l` lists the distinct
elements of `l` in order of first occurrence.  Applied to the reversed
call sequence it expresses "most-recently-used first". -/
def dedupKeepFirst : List String → List String
  | [] => []
  | x :: xs => x :: (dedupKeepFirst xs).erase x

theorem addListToRecent_eq (p : String) (rl : List String) :
    addListToRecent p rl = (addRecentCore rl p).take 10 := by
  unfold addListToRecent addRecentCore
  by_cases h : p ∈ rl
  · rw [if_pos h]
  · rw [if_neg h, List.erase_of_not_mem h]

theorem take_erase_take {α : Type} [DecidableEq α] (l : List α) (a : α)
    (n : Nat) : ((l.take (n + 1)).erase a).take n = (l.erase a).take n := by
  induction l generalizing n with
  | nil => simp
  | cons x xs ih =>
    rw [List.take_succ_cons]
    by_cases hax : x = a
    · subst hax
      rw [List.erase_cons_head, List.erase_cons_head, List.take_take]
      simp
    · have hbeq : ¬(x == a) = true := by simp [hax]
      rw [List.erase_cons_tail hbeq, List.erase_cons_tail hbeq]
      cases n with
      | zero => simp
      | succ m =>
        rw [List.take_succ_cons, List.take_succ_cons, ih m]

theorem foldl_addListToRecent_take (cs : List String) (s : List String) :
    cs.foldl (fun rl p => addListToRecent p rl) (s.take 10) =
      (cs.foldl addRecentCore s).take 10 := by
  induction cs generalizing s with
  | nil => simp
  | cons c cs ih =>
    rw [List.foldl_cons, List.foldl_cons, addListToRecent_eq, ← ih]
    congr 1
    show (addRecentCore (s.take 10) c).take 10 = (addRecentCore s c).take 10
    unfold addRecentCore
    rw [show (10 : Nat) = 9 + 1 from rfl, List.take_succ_cons,
      List.take_succ_cons, take_erase_take]

theorem foldl_addRecentCore_reverse (ds : List String) :
    List.foldl addRecentCore [] ds.reverse = dedupKeepFirst ds := by
  induction ds with
  | nil => rfl
  | cons d ds ih =>
    rw [List.reverse_cons, List.foldl_append, ih]
    rfl

theorem dedupKeepFirst_nodup (l : List String) : (dedupKeepFirst l).Nodup := by
  induction l with
  | nil => simp [dedupKeepFirst]
  | cons x xs ih =>
    rw [dedupKeepFirst, List.nodup_cons]
    exact ⟨ih.not_mem_erase, ih.erase x⟩

theorem foldl_addListToRecent_closed (cs : List String) :
    cs.foldl (fun rl p => addListToRecent p rl) [] =
      (dedupKeepFirst cs.reverse).take 10 := by
  have h0 : ([] : List String) = ([] : List String).take 10 := rfl
  rw [h0, foldl_addListToRecent_take, ← foldl_addRecentCore_reverse
    cs.reverse, List.reverse_reverse]

/-- C4: every mutation of `recent_lists` by `save_list` / `load_list`
goes through `add_list_to_recent`; starting from a fresh repository,
after any sequence of recorded paths the stored `recent_lists` is the
keep-first deduplication of the reversed call sequence truncated to 10 —
so it holds at most 10 entries, most-recently-used first, with no
duplicates — and `get_recent_lists(100)` returns at most 10 entries, a
subsequence of `recent_lists` in that order. -/
theorem recent_lists_bound (calls : List String) (favs : List String)
    (colls : Dict (List String)) (fs : Dict FileContent) :
    (calls.foldl (fun rl p => addListToRecent p rl) []).length ≤ 10 ∧
    (calls.foldl (fun rl p => addListToRecent p rl) []).Nodup ∧
    calls.foldl (fun rl p => addListToRecent p rl) [] =
      (dedupKeepFirst calls.reverse).take 10 ∧
    (getRecentLists
        { metadata :=
            { recent_lists := calls.foldl (fun rl p => addListToRecent p rl) []
              favorite_lists := favs
              collections := colls }
          fs := fs } 100).Sublist
      (calls.foldl (fun rl p => addListToRecent p rl) []) ∧
    (getRecentLists
        { metadata :=
            { recent_lists := calls.foldl (fun rl p => addListToRecent p rl) []
              favorite_lists := favs
              collections := colls }
          fs := fs } 100).length ≤ 10 := by
  have hchar := foldl_addListToRecent_closed calls
  have hlen : (calls.foldl (fun rl p => addListToRecent p rl) []).length ≤ 10 := by
    rw [hchar]
    simp
  have hnodup : (calls.foldl (fun rl p => addListToRecent p rl) []).Nodup := by
    rw [hchar]
    exact (dedupKeepFirst_nodup _).sublist (List.take_sublist _ _)
  have hsub : (getRecentLists
      { metadata :=
          { recent_lists := calls.foldl (fun rl p => addListToRecent p rl) []
            favorite_lists := favs
            collections := colls }
        fs := fs } 100).Sublist
      (calls.foldl (fun rl p => addListToRecent p rl) []) := by
    unfold getRecentLists
    refine List.Sublist.trans ?_ (List.take_sublist 100 _)
    exact filterMap_self_sublist _ (fun p => listInfoPath_none_or_self fs p) _
  exact ⟨hlen, hnodup, hchar, hsub, le_trans hsub.length_le hlen⟩

/-! ### C6: delete_list cleanup -/

/-- C6 (amended): for a duplicate-free sidecar and an existing file at a
`.sush` or `.json` path `p`, `delete_list(p)` returns `true` and purges
`p` from `recent_lists`, `favorite_lists` and every collection's member
list; afterwards `p` appears in none of `get_recent_lists`,
`get_favorite_lists` or the collections returned by `get_collections`,
and `load_list(p)` fails with the not-found `ImportError`; and for any
path `q` with no file, `delete_list(q)` returns `false`. -/
theorem delete_list_cleanup (st : RepoState) (p q : String) (today : Date)
    (now : String) (hex : dictHasKey st.fs p = true)
    (hext : pyEndsWith p ".sush" = true ∨
      (pyEndsWith p ".sush" = false ∧ pyEndsWith p ".json" = true))
    (hr : st.metadata.recent_lists.Nodup)
    (hf : st.metadata.favorite_lists.Nodup)
    (hc : ∀ c ∈ st.metadata.collections, (Prod.snd c).Nodup)
    (hq : dictHasKey st.fs q = false) :
    (deleteList st p).2 = true ∧
    (deleteList st p).1.metadata.recent_lists.contains p = false ∧
    (deleteList st p).1.metadata.favorite_lists.contains p = false ∧
    ((deleteList st p).1.metadata.collections.all
      (fun c => !(Prod.snd c).contains p)) = true ∧
    (getRecentLists (deleteList st p).1 100).contains p = false ∧
    (getFavoriteLists (deleteList st p).1).contains p = false ∧
    ((getCollections (deleteList st p).1).2.all
      (fun c => !(Prod.snd c).contains p)) = true ∧
    (loadList (deleteList st p).1 p today now).2 =
      .error (PyErr.importErrorOf PyErr.fileNotFound) ∧
    (deleteList st q).2 = false := by
  obtain ⟨fc, hfc⟩ : ∃ fc, dictGet st.fs p = some fc := by
    rcases hg : dictGet st.fs p with _ | fc
    · rw [dictHasKey, hg] at hex
      simp at hex
    · exact ⟨fc, rfl⟩
  have hdel : deleteList st p =
      ({ metadata :=
           { recent_lists := st.metadata.recent_lists.erase p
             favorite_lists := st.metadata.favorite_lists.erase p
             collections := st.metadata.collections.map (fun c =>
               if p ∈ c.2 then (c.1, c.2.erase p) else c) }
         fs := dictDel st.fs p }, true) := by
    unfold deleteList
    rw [hfc]
  have hcoll : ∀ c ∈ st.metadata.collections.map (fun c =>
      if p ∈ c.2 then (c.1, c.2.erase p) else c), p ∉ Prod.snd c := by
    intro c' hmem
    obtain ⟨c0, hc0, hmap⟩ := List.mem_map.mp hmem
    by_cases hpc : p ∈ c0.2
    · rw [if_pos hpc] at hmap
      rw [← hmap]
      exact (hc c0 hc0).not_mem_erase
    · rw [if_neg hpc] at hmap
      rw [← hmap]
      exact hpc
  have hfsdel : dictGet (dictDel st.fs p) p = none := dictGet_dictDel_self _ _
  refine ⟨by rw [hdel], ?_, ?_, ?_, ?_, ?_, ?_, ?_, ?_⟩
  · rw [hdel]
    simpa using hr.not_mem_erase
  · rw [hdel]
    simpa using hf.not_mem_erase
  · rw [hdel]
    rw [List.all_eq_true]
    intro c' hmem
    simpa using hcoll c' hmem
  · rw [hdel]
    have hnot : p ∉ getRecentLists
        ({ metadata :=
             { recent_lists := st.metadata.recent_lists.erase p
               favorite_lists := st.metadata.favorite_lists.erase p
               collections := st.metadata.collections.map (fun c =>
                 if p ∈ c.2 then (c.1, c.2.erase p) else c) }
           fs := dictDel st.fs p } : RepoState) 100 := by
      intro hmem
      unfold getRecentLists at hmem
      have h1 := (filterMap_self_sublist _
        (fun r => listInfoPath_none_or_self _ r) _).subset hmem
      exact hr.not_mem_erase (List.mem_of_mem_take h1)
    simpa using hnot
  · rw [hdel]
    have hnot : p ∉ getFavoriteLists
        ({ metadata :=
             { recent_lists := st.metadata.recent_lists.erase p
               favorite_lists := st.metadata.favorite_lists.erase p
               collections := st.metadata.collections.map (fun c =>
                 if p ∈ c.2 then (c.1, c.2.erase p) else c) }
           fs := dictDel st.fs p } : RepoState) := by
      intro hmem
      unfold getFavoriteLists at hmem
      have h1 := (filterMap_self_sublist _
        (fun r => listInfoPath_none_or_self _ r) _).subset hmem
      exact hf.not_mem_erase h1
    simpa using hnot
  · rw [hdel]
    rw [List.all_eq_true]
    intro c' hmem
    unfold getCollections at hmem
    split at hmem
    · simp at hmem
      simp [hmem]
    · obtain ⟨c0, hc0, hmap⟩ := List.mem_map.mp hmem
      have hsub : Prod.snd c' ⊆ Prod.snd c0 := by
        rw [← hmap]
        exact (filterMap_self_sublist _
          (fun r => listInfoPath_none_or_self _ r) _).subset
      have : p ∉ Prod.snd c' := fun hp => hcoll c0 hc0 (hsub hp)
      simpa using this
  · rw [hdel]
    rcases hext with hsush | ⟨hs, hj⟩
    · simp [loadList, hsush, addListToRecentS, importFromNewFormatFS,
        hfsdel, Except.map]
    · simp [loadList, hs, hj, addListToRecentS, importFromOldFormatFS,
        hfsdel, Except.map]
  · rcases hg : dictGet st.fs q with _ | fc2
    · unfold deleteList
      rw [hg]
    · rw [dictHasKey, hg] at hq
      simp at hq

/-- The C6 witness state: one `.sush` file, referenced by the recents,
the favorites and the collection `"C"`. -/
def c6State : RepoState where
  metadata :=
    { recent_lists := ["Lists/a.sush"]
      favorite_lists := ["Lists/a.sush"]
      collections := [("C", ["Lists/a.sush"])] }
  fs := [("Lists/a.sush",
    FileContent.sushFile ⟨1, ⟨"t", "d", "c", "m", 0⟩, []⟩)]

/-- C6 witness: `delete_list_cleanup` at `c6State`, deleting
`"Lists/a.sush"` and probing the missing `"missing.sush"`. -/
theorem delete_list_cleanup_witness :
    (deleteList c6State "Lists/a.sush").2 = true ∧
    (deleteList c6State
      "Lists/a.sush").1.metadata.recent_lists.contains "Lists/a.sush" =
      false ∧
    (deleteList c6State
      "Lists/a.sush").1.metadata.favorite_lists.contains "Lists/a.sush" =
      false ∧
    ((deleteList c6State "Lists/a.sush").1.metadata.collections.all
      (fun c => !(Prod.snd c).contains "Lists/a.sush")) = true ∧
    (getRecentLists (deleteList c6State "Lists/a.sush").1 100).contains
      "Lists/a.sush" = false ∧
    (getFavoriteLists (deleteList c6State "Lists/a.sush").1).contains
      "Lists/a.sush" = false ∧
    ((getCollections (deleteList c6State "Lists/a.sush").1).2.all
      (fun c => !(Prod.snd c).contains "Lists/a.sush")) = true ∧
    (loadList (deleteList c6State "Lists/a.sush").1 "Lists/a.sush"
      ⟨2024, 1, 2⟩ "N").2 =
      .error (PyErr.importErrorOf PyErr.fileNotFound) ∧
    (deleteList c6State "missing.sush").2 = false :=
  delete_list_cleanup c6State "Lists/a.sush" "missing.sush" ⟨2024, 1, 2⟩ "N"
    (by decide) (Or.inl (by decide)) (by decide) (by decide) (by decide)
    (by decide)

/-- The C6 counterexample state: an existing file at the extensionless
path `"foo.txt"`. -/
def c6TxtState : RepoState where
  metadata :=
    { recent_lists := []
      favorite_lists := []
      collections := [] }
  fs := [("foo.txt", FileContent.invalidFile)]

/-- C6 counterexample against the claim as stated: `"foo.txt"` exists,
`delete_list` removes it and returns `true`, but the subsequent
`load_list("foo.txt")` fails with the unsupported-format `ValueError`,
not with a not-found condition. -/
theorem delete_list_txt_not_notfound :
    (deleteList c6TxtState "foo.txt").2 = true ∧
    (loadList (deleteList c6TxtState "foo.txt").1 "foo.txt" ⟨2024, 1, 2⟩
      "N").2 = .error (PyErr.valueError "Unsupported file format: foo.txt") ∧
    (loadList (deleteList c6TxtState "foo.txt").1 "foo.txt" ⟨2024, 1, 2⟩
      "N").2 ≠ .error (PyErr.importErrorOf PyErr.fileNotFound) :=
  ⟨rfl, rfl, by decide⟩

end SusheNG
